import Mathlib

/-!
Shallow embedding of the twitch-photo extension backend (EBS).

The repository ships several redundant server variants; the definitions below
embed the ones the specification's claims cite:

* suffix `A`  — `server/server.js` (verifying server over better-sqlite3);
* suffix `B`  — top-level `server.js` (decodes session tokens WITHOUT verifying);
* suffix `P0` — the unnamed variant `src/unnamed/part_000` (routes), which uses
* suffix `TW` — its helper module (second half of `server/db.js`, "twitch.js"):
  `ensureValidChannelToken`, `isSubscriber`, chat helpers.

Modelling conventions:
* JS numbers are `Int` (counters, times) and `Nat` (row ids); `Date.now()/1000`
  is an explicit `now` parameter.
* HMAC-SHA256 (the `jsonwebtoken` HS256 signature) is modelled as an abstract
  keyed tag over a canonical encoding of the claim set; `jwt.verify` compares
  the stored tag to the recomputed one, `jwt.decode` does not look at it.
* Upstream HTTP calls (refresh-token exchange, Helix subscription lookup, user
  lookup, chat send) are oracles passed explicitly; `.error` models a rejected
  promise / thrown exception.
* JS truthiness is modelled where a claim can observe it: `truthyStr` for
  `s || ...` on nullable strings (both `null` and `""` are falsy), `numOr` for
  `n || d` on nullable numbers (both absent and `0` are falsy), `0` is a falsy
  photo id.  An empty-string access token stored in the DB is not distinguished
  from an absent one beyond `truthyStr` at its use sites.
-/

/-- HTTP outcome of a handler: `ok body` for a 200 JSON response, `err status msg`
for `res.status(status).json({error: msg})`. -/
inductive HttpRes (α : Type) where
  | ok (body : α)
  | err (status : Nat) (msg : String)
deriving Repr, DecidableEq

/-- JS `s || fallback-to-null` for a nullable string: `null`, `undefined` and `""`
are falsy. -/
def truthyStr : Option String → Option String
  | some s => if s = "" then none else some s
  | none => none

/-- JS `x || d` for a string against a default. -/
def strOr (x : Option String) (d : String) : String :=
  match x with
  | some s => if s = "" then d else s
  | none => d

/-- JS `n || d` for a nullable number: absent and `0` are falsy. -/
def numOr (x : Option Int) (d : Int) : Int :=
  match x with
  | some v => if v = 0 then d else v
  | none => d

/-! Character-level string operations (executable by the kernel, unlike the
position-based `String` primitives) used to embed the JS string methods. -/

/-- JS `s.startsWith(pre)`. -/
def strStartsWith (s pre : String) : Bool := pre.data.isPrefixOf s.data

/-- The string with the first `n` characters removed (JS
`s.replace(pre, '')` when `pre` is known to be the `n`-character prefix). -/
def strDropChars (s : String) (n : Nat) : String := ⟨s.data.drop n⟩

/-- JS `String(s).slice(0, n)`. -/
def strTakeChars (s : String) (n : Nat) : String := ⟨s.data.take n⟩

def digitVal (c : Char) : Option Nat :=
  if 48 ≤ c.toNat ∧ c.toNat ≤ 57 then some (c.toNat - 48) else none

def parseDigitsAux : List Char → Nat → Option Nat
  | [], acc => some acc
  | c :: cs, acc =>
    match digitVal c with
    | some d => parseDigitsAux cs (acc * 10 + d)
    | none => none

/-- Parse of an all-digit, non-empty string (`Number(s)` / `parseInt(s, 10)` on
the clean digit strings every embedded SKU uses; mixed strings coerce to
"no parse", modelling their `|| 0` fallback as 0 at the call sites). -/
def strToNatQ (s : String) : Option Nat :=
  match s.data with
  | [] => none
  | cs => parseDigitsAux cs 0

def splitCharsAux (sep : Char) : List Char → List Char → List (List Char)
  | [], acc => [acc.reverse]
  | c :: cs, acc =>
    if c = sep then acc.reverse :: splitCharsAux sep cs []
    else splitCharsAux sep cs (c :: acc)

/-- JS `s.split('_')`. -/
def splitUnderscore (s : String) : List String :=
  (splitCharsAux '_' s.data []).map (fun cs => ⟨cs⟩)

/-- Claims carried by a Twitch extension session JWT. -/
structure SessClaims where
  channel_id : Option String := none
  /-- `opaque_user_id` in the source. -/
  anon_user_id : Option String := none
  user_id : Option String := none
  role : Option String := none
  exp : Option Int := none
deriving Repr, DecidableEq

def encOptStr : Option String → String
  | some s => "s." ++ s
  | none => "n"

def encOptInt : Option Int → String
  | some i => "s." ++ toString i
  | none => "n"

/-- Canonical encoding of a session claim set, used as the HMAC input. -/
def encodeSessClaims (c : SessClaims) : String :=
  encOptStr c.channel_id ++ ";" ++ encOptStr c.anon_user_id ++ ";" ++
    encOptStr c.user_id ++ ";" ++ encOptStr c.role ++ ";" ++ encOptInt c.exp

/-- HMAC over a session payload, modelled as an abstract keyed tag. -/
def sessMac (alg key : String) (c : SessClaims) : String :=
  alg ++ "#" ++ key ++ "#" ++ encodeSessClaims c

/-- A compact session JWT: header algorithm, payload, signature. -/
structure SessToken where
  alg : String
  payload : SessClaims
  sig : String
deriving Repr, DecidableEq

/-- A correctly HS256-signed session token under `key`. -/
def sessSign (key : String) (c : SessClaims) : SessToken :=
  ⟨"HS256", c, sessMac "HS256" key c⟩

/-- The inbound `Authorization` material as a handler sees it. -/
inductive RawAuth where
  | missing
  | malformed (raw : String)
  | token (t : SessToken)
deriving Repr, DecidableEq

/-- `jwt.verify(token, key, {algorithms: ['HS256']})`: algorithm allow-list, then
signature, then `exp` (expired when `exp <= now`, jsonwebtoken's default clock
comparison).  Pure in its inputs. -/
def jwtVerifySess (t : SessToken) (key : String) (now : Int) : Except String SessClaims :=
  if t.alg ≠ "HS256" then .error "invalid algorithm"
  else if t.sig ≠ sessMac t.alg key t.payload then .error "invalid signature"
  else
    match t.payload.exp with
    | some e => if e ≤ now then .error "jwt expired" else .ok t.payload
    | none => .ok t.payload

/-- `jwt.decode(token) || {}`: no key, no signature check, no expiry check. -/
def jwtDecodeSess : RawAuth → SessClaims
  | .token t => t.payload
  | _ => {}

/-- `verifyExtensionJWT` (server/server.js lines 73-79): require a bearer value,
then `jwt.verify` against the base64-decoded extension secret, HS256 only. -/
def verifyExtensionJWT (a : RawAuth) (key : String) (now : Int) : Except String SessClaims :=
  match a with
  | .missing => .error "missing_auth"
  | .malformed _ => .error "jwt malformed"
  | .token t => jwtVerifySess t key now

/-- The normalised `req.twitch` object built by `requireAuth` in server/server.js. -/
structure TwitchCtx where
  user_id : Option String
  anon_user_id : Option String
  role : String
deriving Repr, DecidableEq

/-- `requireAuth` middleware (server/server.js lines 188-202): 401 (`.error ()`) on
any verification failure, otherwise `user_id || null`, `opaque_user_id || null`,
`role || 'viewer'`. -/
def requireAuth (a : RawAuth) (key : String) (now : Int) :
    Except Unit (Option String × TwitchCtx) :=
  match verifyExtensionJWT a key now with
  | .error _ => .error ()
  | .ok p =>
      .ok (p.channel_id,
           ⟨truthyStr p.user_id, truthyStr p.anon_user_id, strOr p.role "viewer"⟩)

/-! ### Variant B: top-level `server.js` (no verification: `jwt.decode` only) -/

structure PhotoB where
  id : Nat
  url : String
  title : String
  likes_count : Int
  tip_bits_total : Int
deriving Repr, DecidableEq

structure CommentB where
  photo_id : Nat
  username : String
  message : String
  bits : Int
deriving Repr, DecidableEq

structure StateB where
  photos : List PhotoB
  comments : List CommentB
deriving Repr, DecidableEq

/-- `decode` (server.js lines 52-56): `jwt.decode` with no verification; `{}` when
the header is absent or undecodable. -/
def decodeB (a : RawAuth) : SessClaims := jwtDecodeSess a

structure StatusBodyB where
  role : String
  isSubscriber : Bool
  channel_id : Option String
  user_id : Option String
deriving Repr, DecidableEq

/-- `GET /api/status` (server.js lines 61-66): role taken from the UNVERIFIED
decode; broadcaster/moderator are reported subscribed. -/
def apiStatusB (a : RawAuth) : HttpRes StatusBodyB :=
  let c := decodeB a
  let role := strOr c.role "viewer"
  .ok ⟨role, role == "broadcaster" || role == "moderator",
       truthyStr c.channel_id, truthyStr c.user_id⟩

def nextIdB (st : StateB) : Nat := (st.photos.map PhotoB.id).foldr max 0 + 1

/-- `POST /api/admin/photos` (server.js lines 72-80): the admin gate reads the role
from the UNVERIFIED decode.  The URL test models `/^https:\/\/.+/i` for
lower-case inputs. -/
def apiAdminPhotosB (a : RawAuth) (st : StateB) (url title : String) :
    HttpRes PhotoB × StateB :=
  let c := decodeB a
  let role := strOr c.role "viewer"
  if role ≠ "broadcaster" ∧ role ≠ "moderator" then (.err 403 "forbidden", st)
  else if ¬(strStartsWith url "https://" = true ∧ 8 < url.length) then
    (.err 400 "direct https image url required", st)
  else
    let p : PhotoB := ⟨nextIdB st, url, title, 0, 0⟩
    (.ok p, { st with photos := st.photos ++ [p] })

structure LikeBodyB where
  photoId : Option Nat
  bits : Int := 0
deriving Repr, DecidableEq

/-- `POST /api/like` (server.js lines 126-130): no auth gate at all; `likes_count+1`
and `tip_bits_total+bits` on the addressed photo; 404 when no row matched.  The
source runs the UPDATE before checking `r.changes`, mirrored here. -/
def apiLikeB (st : StateB) (body : LikeBodyB) : HttpRes (Nat × Int) × StateB :=
  let pid := body.photoId.getD 0
  if pid = 0 then (.err 400 "invalid id", st)
  else
    let changes := (st.photos.filter (fun p => p.id == pid)).length
    let st1 := { st with photos := st.photos.map (fun p =>
      if p.id == pid then
        { p with likes_count := p.likes_count + 1,
                 tip_bits_total := p.tip_bits_total + body.bits }
      else p) }
    if changes = 0 then (.err 404 "not found", st1) else (.ok (pid, body.bits), st1)

/-! ### Variant A: `server/server.js` — shared DB rows and token store -/

/-- A `photos` row (db.js schema plus the `likes_count` column server/server.js adds). -/
structure Photo where
  id : Nat
  channel_id : String
  url : String
  title : String
  tip_bits_total : Int
  likes_count : Int
deriving Repr, DecidableEq

/-- A `comments` row (fields the embedded handlers read or write). -/
structure Comment where
  channel_id : String
  photo_id : Nat
  user_id : Option String
  display_name : String
  message : String
  created_at : Int
deriving Repr, DecidableEq

/-- A `tips` ledger row (db.js schema). -/
structure Tip where
  channel_id : String
  photo_id : Nat
  user_id : String
  bits : Int
  created_at : Int
deriving Repr, DecidableEq

/-- A `channel_tokens` row (server/server.js bootstrap schema). -/
structure TokenRow where
  channel_id : String
  access_token : Option String
  refresh_token : Option String
  expires_at : Int
deriving Repr, DecidableEq

/-- Durable state reachable from server/server.js. -/
structure StateA where
  photos : List Photo
  comments : List Comment
  tips : List Tip
  channel_tokens : List TokenRow
deriving Repr, DecidableEq

/-- A successful `POST /oauth2/token` refresh-exchange payload. -/
structure RefreshResp where
  access_token : String
  refresh_token : Option String
  expires_in : Option Int
deriving Repr, DecidableEq

/-- The refresh-token exchange against id.twitch.tv, keyed by refresh token. -/
abbrev RefreshOracle := String → Except String RefreshResp

/-- Helix `GET /subscriptions` (broadcaster id, user id) — `.ok b` is
`data.length > 0`, `.error` a failed/timed-out call. -/
abbrev SubOracle := String → String → Except String Bool

structure HelixUser where
  login : String
  display_name : Option String
deriving Repr, DecidableEq

/-- Helix `GET /users` by id (access token, user id); `.ok none` is an empty
`data` array. -/
abbrev UserOracle := String → String → Except String (Option HelixUser)

/-- Chat-message send (channel id, message text). -/
abbrev ChatOracle := String → String → Except String Unit

/-- `SELECT * FROM channel_tokens WHERE channel_id = ?`: `channel_id` is the
primary key, so the first match is the row. -/
def findRow : List TokenRow → String → Option TokenRow
  | [], _ => none
  | r :: rs, ch => if r.channel_id = ch then some r else findRow rs ch

/-- `getChannelTokenRow` (server/server.js line 134). -/
def getChannelTokenRow (st : StateA) (ch : String) : Option TokenRow :=
  findRow st.channel_tokens ch

/-- `INSERT ... ON CONFLICT(channel_id) DO UPDATE` over `channel_tokens`: since
`channel_id` is the primary key and the conflict clause overwrites every non-key
column, this replaces the unique matching row or appends a fresh one. -/
def upsertToken : List TokenRow → TokenRow → List TokenRow
  | [], row => [row]
  | r :: rs, row =>
    if r.channel_id = row.channel_id then row :: rs else r :: upsertToken rs row

/-- `saveChannelToken` (server/server.js lines 138-145):
`expires_at = now + expires_in - 30` (the callers always pass a nonzero
`expires_in`, so the `Number(expires_in)||0` guard is the identity). -/
def saveChannelToken (now : Int) (st : StateA) (ch atk : String)
    (rt : Option String) (expires_in : Int) : StateA :=
  { st with channel_tokens :=
      upsertToken st.channel_tokens ⟨ch, some atk, rt, now + expires_in - 30⟩ }

/-- `ensureValidChannelToken` (server/server.js lines 147-163): return the stored
row when it still carries an access token and `expires_at > now`; otherwise
refresh via the oracle when a refresh token exists, persisting
`t.refresh_token || row.refresh_token` and `t.expires_in || 3600`, and re-read
the row; in every remaining case throw `no_channel_token`.  The inner `none`
branch after a refresh is dead code: the upsert guarantees the row exists. -/
def ensureValidChannelToken (now : Int) (refO : RefreshOracle) (st : StateA)
    (ch : String) : Except String TokenRow × StateA :=
  match getChannelTokenRow st ch with
  | some row =>
    if (truthyStr row.access_token).isSome ∧ row.expires_at > now then (.ok row, st)
    else
      match row.refresh_token with
      | some rt =>
        match refO rt with
        | .ok t =>
          let rt' := match truthyStr t.refresh_token with
                     | some r => some r
                     | none => some rt
          let st1 := saveChannelToken now st ch t.access_token rt' (numOr t.expires_in 3600)
          (match getChannelTokenRow st1 ch with
           | some r2 => (.ok r2, st1)
           | none => (.error "no_channel_token", st1))
        | .error _ => (.error "no_channel_token", st)
      | none => (.error "no_channel_token", st)
  | none => (.error "no_channel_token", st)

/-- `isSubscriber` (server/server.js lines 170-175): broadcaster token first (its
failure propagates), then the Helix subscriptions lookup. -/
def isSubscriberA (now : Int) (refO : RefreshOracle) (subO : SubOracle)
    (st : StateA) (ch uid : String) : Except String Bool × StateA :=
  match ensureValidChannelToken now refO st ch with
  | (.error e, st1) => (.error e, st1)
  | (.ok _row, st1) => (subO ch uid, st1)

/-- `twitch.role || 'viewer'`, re-applied inside each handler. -/
def roleOf (tw : TwitchCtx) : String := if tw.role = "" then "viewer" else tw.role

structure StatusBody where
  userId : Option String
  role : String
  isSubscriber : Bool
deriving Repr, DecidableEq

/-- `GET /api/status` (server/server.js lines 269-282): broadcaster/moderator are
reported subscribed unconditionally; otherwise the subscription check runs for a
shared identity, with any thrown error swallowed into `false`. -/
def apiStatusA (now : Int) (refO : RefreshOracle) (subO : SubOracle)
    (st : StateA) (ch : String) (tw : TwitchCtx) : HttpRes StatusBody × StateA :=
  let userId := tw.user_id
  let role := roleOf tw
  if role = "broadcaster" ∨ role = "moderator" then (.ok ⟨userId, role, true⟩, st)
  else
    match userId with
    | some u =>
      (match isSubscriberA now refO subO st ch u with
       | (.ok b, st1) => (.ok ⟨userId, role, b⟩, st1)
       | (.error _, st1) => (.ok ⟨userId, role, false⟩, st1))
    | none => (.ok ⟨userId, role, false⟩, st)

structure PhotoOut where
  id : Nat
  url : String
  title : String
  tip_bits_total : Int
  likes_count : Int
deriving Repr, DecidableEq

def insertPhotoDesc (p : PhotoOut) : List PhotoOut → List PhotoOut
  | [] => [p]
  | q :: qs => if q.id ≤ p.id then p :: q :: qs else q :: insertPhotoDesc p qs

/-- `SELECT id,url,title,tip_bits_total,likes_count FROM photos WHERE channel_id=?
ORDER BY id DESC`. -/
def photosOfA (st : StateA) (ch : String) : List PhotoOut :=
  ((st.photos.filter (fun p => p.channel_id == ch)).map
    (fun p => ⟨p.id, p.url, p.title, p.tip_bits_total, p.likes_count⟩)).foldr insertPhotoDesc []

/-- `GET /api/photos` (server/server.js lines 285-301): broadcaster/moderator skip
the gate; a viewer without shared identity is 403 `identity_required`; a failed
or false subscription check (`.catch(() => false)`) is 403 `sub_only`. -/
def apiPhotosA (now : Int) (refO : RefreshOracle) (subO : SubOracle)
    (st : StateA) (ch : String) (tw : TwitchCtx) : HttpRes (List PhotoOut) × StateA :=
  let role := roleOf tw
  if role ≠ "broadcaster" ∧ role ≠ "moderator" then
    match tw.user_id with
    | none => (.err 403 "identity_required", st)
    | some u =>
      (match isSubscriberA now refO subO st ch u with
       | (.ok true, st1) => (.ok (photosOfA st1 ch), st1)
       | (.ok false, st1) => (.err 403 "sub_only", st1)
       | (.error _, st1) => (.err 403 "sub_only", st1))
  else (.ok (photosOfA st ch), st)

/-- `requireBroadcaster` middleware (server/server.js lines 304-310). -/
def requireBroadcasterA (tw : TwitchCtx) : Bool :=
  roleOf tw == "broadcaster" || roleOf tw == "moderator"

/-- The try/catch chat-announcement block shared by `POST /api/like` and the TIP
branch of `POST /api/transactions/complete` (server/server.js lines 377-387 and
407-415): fetch a broadcaster token (failure ends the block), best-effort user
lookup (`.catch(() => null)`), then `sendChatMessage`, which fetches a token
again and posts to Helix; every failure is caught and only logged, so neither
the caller's response nor the photo/tip/comment state depends on it. -/
def chatAnnounceA (now : Int) (refO : RefreshOracle) (uO : UserOracle) (cO : ChatOracle)
    (st : StateA) (ch : String) (uid : Option String) : StateA :=
  match ensureValidChannelToken now refO st ch with
  | (.error _, st1) => st1
  | (.ok row, st1) =>
    let who : String :=
      match truthyStr row.access_token, truthyStr uid with
      | some atk, some u =>
        (match uO atk u with
         | .ok (some usr) =>
           let c := strOr usr.display_name usr.login
           if c = "" then "Someone" else c
         | _ => "Someone")
      | _, _ => "Someone"
    match ensureValidChannelToken now refO st1 ch with
    | (.error _, st2) => st2
    | (.ok _, st2) =>
      let _sent := cO ch ("⭐ " ++ who ++ " tipped a photo!")
      st2

structure LikeBody where
  photoId : Option Nat
  bits : Option Int
deriving Repr, DecidableEq

/-- `POST /api/like` (server/server.js lines 363-389): staff (or `DEV_FREEBITS=1`)
only; `likes_count+1` and `tip_bits_total + (Number(bits)||0)` on the addressed
photo of the session's channel.  No receipt is read anywhere in the handler and
no `tips` ledger row is written. -/
def apiLikeA (dev : Bool) (now : Int) (refO : RefreshOracle) (uO : UserOracle)
    (cO : ChatOracle) (st : StateA) (ch : String) (tw : TwitchCtx)
    (body : LikeBody) : HttpRes Bool × StateA :=
  let role := roleOf tw
  if ¬dev = true ∧ role ≠ "broadcaster" ∧ role ≠ "moderator" then
    (.err 403 "bits_required", st)
  else
    match body.photoId with
    | none => (.err 400 "missing_photo", st)
    | some pid =>
      if pid = 0 then (.err 400 "missing_photo", st)
      else
        let inc := body.bits.getD 0
        let st1 := { st with photos := st.photos.map (fun p =>
          if p.id = pid ∧ p.channel_id = ch then
            { p with likes_count := p.likes_count + 1,
                     tip_bits_total := p.tip_bits_total + inc }
          else p) }
        (.ok true, chatAnnounceA now refO uO cO st1 ch tw.user_id)

structure OnReceipt where
  sku : Option String
deriving Repr, DecidableEq

structure TxBodyA where
  onReceipt : Option OnReceipt
  photoId : Option Nat
  comment : Option String
deriving Repr, DecidableEq

/-- `Number(sku.replace('TIP_','')) || 0` for SKUs already known to start with
`TIP_` (non-numeric remainders coerce to 0). -/
def tipBitsA (sku : String) : Int :=
  match strToNatQ (strDropChars sku 4) with
  | some n => (n : Int)
  | none => 0

/-- `POST /api/transactions/complete` (server/server.js lines 392-434): the SKU is
taken straight from the client-supplied `onReceipt` body field — NO signed
receipt is verified anywhere in this handler and no payer identity is checked.
`TIP_n` bumps the photo counters (when a photo id is supplied) and announces;
`COMMENT_500` inserts a comment row.  (The comment INSERT omits `created_at`,
which db.js declares NOT NULL — modelled as inserting 0; no claim exercises
that branch's success.) -/
def transactionsCompleteA (now : Int) (refO : RefreshOracle) (uO : UserOracle)
    (cO : ChatOracle) (st : StateA) (ch : String) (tw : TwitchCtx)
    (body : TxBodyA) : HttpRes Bool × StateA :=
  let sku := strOr (body.onReceipt.bind OnReceipt.sku) ""
  if sku = "" then (.err 400 "missing_sku", st)
  else if strStartsWith sku "TIP_" then
    let bits := tipBitsA sku
    let st1 :=
      match body.photoId with
      | some pid =>
        if pid = 0 then st
        else { st with photos := st.photos.map (fun p =>
          if p.id = pid ∧ p.channel_id = ch then
            { p with tip_bits_total := p.tip_bits_total + bits,
                     likes_count := p.likes_count + 1 }
          else p) }
      | none => st
    (.ok true, chatAnnounceA now refO uO cO st1 ch tw.user_id)
  else if sku = "COMMENT_500" then
    match body.photoId, truthyStr body.comment with
    | some pid, some c =>
      if pid = 0 then (.err 400 "missing_photo_or_comment", st)
      else
        (.ok true, { st with comments := st.comments ++
          [⟨ch, pid, tw.user_id, "Someone", strTakeChars c 200, 0⟩] })
    | _, _ => (.err 400 "missing_photo_or_comment", st)
  else (.err 400 "unknown_sku", st)

/-! ### Variants TW/P0: `src/unnamed/part_000` routes over the twitch.js helpers -/

/-- A `channels` row (db.js schema used by part_000/twitch.js). -/
structure ChannelRow where
  channel_id : String
  broadcaster_login : Option String
  access_token : Option String
  refresh_token : Option String
  expires_at : Option Int
deriving Repr, DecidableEq

/-- Durable state reachable from part_000. -/
structure StateP where
  photos : List Photo
  comments : List Comment
  tips : List Tip
  channels : List ChannelRow
deriving Repr, DecidableEq

/-- `row.expires_at && row.expires_at > Math.floor(Date.now()/1000)+60`
(twitch.js line 191): a null or 0 expiry is falsy. -/
def freshTW (e : Option Int) (now : Int) : Bool :=
  match e with
  | some v => v != 0 && decide (v > now + 60)
  | none => false

/-- `SELECT * FROM channels WHERE channel_id = ?` (unique key). -/
def findChan : List ChannelRow → String → Option ChannelRow
  | [], _ => none
  | r :: rs, ch => if r.channel_id = ch then some r else findChan rs ch

/-- `ensureValidChannelToken` (twitch.js / server/db.js lines 188-202): returns
`null` when no row exists; returns the stored row when its expiry clears the
60-second margin; otherwise refreshes and persists `refreshed.refresh_token`
and `now + refreshed.expires_in` (an absent `expires_in`, NaN in JS, is not
modelled — callers in the theorems always supply one); on refresh failure it
returns the stored row as-is — the source comments `// may be expired`. -/
def ensureValidChannelTokenTW (now : Int) (refO : RefreshOracle) (st : StateP)
    (ch : String) : Option ChannelRow × StateP :=
  match findChan st.channels ch with
  | none => (none, st)
  | some row =>
    if freshTW row.expires_at now then (some row, st)
    else
      match (match row.refresh_token with
             | some rt => refO rt
             | none => .error "missing refresh_token") with
      | .ok t =>
        let ea := now + t.expires_in.getD 0
        let st1 := { st with channels := st.channels.map (fun r =>
          if r.channel_id = ch then
            { r with access_token := some t.access_token,
                     refresh_token := t.refresh_token,
                     expires_at := some ea }
          else r) }
        (findChan st1.channels ch, st1)
      | .error _ => (some row, st)

/-- `isSubscriber` (twitch.js / server/db.js lines 204-214): `false` when no row or
no usable access token; the Helix call's failure is caught and treated as
`false`; never throws. -/
def isSubscriberTW (now : Int) (refO : RefreshOracle) (subO : SubOracle)
    (st : StateP) (ch uid : String) : Bool × StateP :=
  match ensureValidChannelTokenTW now refO st ch with
  | (none, st1) => (false, st1)
  | (some row, st1) =>
    match truthyStr row.access_token with
    | none => (false, st1)
    | some _ =>
      (match subO ch uid with
       | .ok b => (b, st1)
       | .error _ => (false, st1))

/-- `GET /api/status` (part_000 lines 79-88): NO role bypass; the subscription
check runs only for a shared identity. -/
def apiStatusP0 (now : Int) (refO : RefreshOracle) (subO : SubOracle)
    (st : StateP) (ch : String) (claims : SessClaims) : HttpRes StatusBody × StateP :=
  let userId := truthyStr claims.user_id
  let role := strOr claims.role "viewer"
  match userId with
  | some u =>
    (match isSubscriberTW now refO subO st ch u with
     | (b, st1) => (.ok ⟨userId, role, b⟩, st1))
  | none => (.ok ⟨userId, role, false⟩, st)

structure PhotoOutP0 where
  id : Nat
  url : String
  title : String
  tip_bits_total : Int
deriving Repr, DecidableEq

def insertPhotoAscP0 (p : PhotoOutP0) : List PhotoOutP0 → List PhotoOutP0
  | [] => [p]
  | q :: qs => if p.id ≤ q.id then p :: q :: qs else q :: insertPhotoAscP0 p qs

/-- `SELECT id,url,title,tip_bits_total FROM photos WHERE channel_id=? ORDER BY id
ASC` (part_000 line 97). -/
def photosOfP0 (st : StateP) (ch : String) : List PhotoOutP0 :=
  ((st.photos.filter (fun p => p.channel_id == ch)).map
    (fun p => ⟨p.id, p.url, p.title, p.tip_bits_total⟩)).foldr insertPhotoAscP0 []

/-- `GET /api/photos` (part_000 lines 91-99): NO role bypass — every caller,
including broadcaster/moderator, is gated first on a shared identity and then
on the subscription lookup. -/
def apiPhotosP0 (now : Int) (refO : RefreshOracle) (subO : SubOracle)
    (st : StateP) (ch : String) (claims : SessClaims) :
    HttpRes (List PhotoOutP0) × StateP :=
  match truthyStr claims.user_id with
  | none => (.err 403 "identity_required", st)
  | some u =>
    (match isSubscriberTW now refO subO st ch u with
     | (true, st1) => (.ok (photosOfP0 st1 ch), st1)
     | (false, st1) => (.err 403 "sub_only", st1))

/-- The `data.product` field of a purchase receipt: Twitch sometimes nests
`{sku, cost}`, sometimes sends a plain string. -/
inductive ProductField where
  | obj (sku : Option String) (cost : Option Int)
  | str (s : String)
deriving Repr, DecidableEq

structure ReceiptData where
  userId : Option String := none
  product : Option ProductField := none
  transactionId : Option String := none
deriving Repr, DecidableEq

structure ReceiptPayload where
  data : Option ReceiptData := none
  exp : Option Int := none
deriving Repr, DecidableEq

def encodeProduct : Option ProductField → String
  | some (.obj s c) => "o." ++ encOptStr s ++ "." ++ encOptInt c
  | some (.str s) => "p." ++ s
  | none => "n"

def encodeRcpt (p : ReceiptPayload) : String :=
  (match p.data with
   | some d =>
     "d." ++ encOptStr d.userId ++ ";" ++ encodeProduct d.product ++ ";" ++
       encOptStr d.transactionId
   | none => "n") ++ ";" ++ encOptInt p.exp

/-- HMAC over a receipt payload, modelled as an abstract keyed tag. -/
def rcptMac (alg key : String) (p : ReceiptPayload) : String :=
  alg ++ "#" ++ key ++ "#" ++ encodeRcpt p

structure ReceiptToken where
  alg : String
  payload : ReceiptPayload
  sig : String
deriving Repr, DecidableEq

/-- A correctly HS256-signed receipt under `key`. -/
def rcptSign (key : String) (p : ReceiptPayload) : ReceiptToken :=
  ⟨"HS256", p, rcptMac "HS256" key p⟩

/-- The `receipt` body field as the handler sees it. -/
inductive RawRcpt where
  | missing
  | malformed (raw : String)
  | token (t : ReceiptToken)
deriving Repr, DecidableEq

/-- `jwt.verify(receipt, base64decode(EXTENSION_SECRET_B64), {algorithms:['HS256']})`
(part_000 line 159): algorithm allow-list, signature, expiry. -/
def jwtVerifyRcpt (r : RawRcpt) (key : String) (now : Int) :
    Except String ReceiptPayload :=
  match r with
  | .missing => .error "jwt must be provided"
  | .malformed _ => .error "jwt malformed"
  | .token t =>
    if t.alg ≠ "HS256" then .error "invalid algorithm"
    else if t.sig ≠ rcptMac t.alg key t.payload then .error "invalid signature"
    else
      match t.payload.exp with
      | some e => if e ≤ now then .error "jwt expired" else .ok t.payload
      | none => .ok t.payload

/-- Result of the ad-hoc sku probe: a string, or a non-string value on which the
later `.startsWith` / `.split` call throws (a product object without a truthy
`sku` falls through `&&`/`||` as the object itself). -/
inductive SkuVal where
  | str (s : String)
  | nonString
deriving Repr, DecidableEq

/-- `decoded.data.product.sku ? decoded.data.product.sku
: (decoded.data && decoded.data.product || 'UNKNOWN')` (part_000 line 160). -/
def extractSkuP0 : Option ReceiptData → SkuVal
  | none => .str "UNKNOWN"
  | some d =>
    match d.product with
    | some (.obj s _) =>
      (match truthyStr s with
       | some sk => .str sk
       | none => .nonString)
    | some (.str s) => .str (if s = "" then "UNKNOWN" else s)
    | none => .str "UNKNOWN"

/-- `parseInt(sku.split('_')[1], 10) || 0` (part_000 line 165); prefix-parsing of
mixed strings is not modelled (clean digit strings in every use here). -/
def tipBitsP0 (sku : String) : Int :=
  match (splitUnderscore sku).get? 1 with
  | some s => (strToNatQ s).elim 0 (fun n => (n : Int))
  | none => 0

/-- The try/catch announcement block in part_000's TIP branch (lines 172-183):
twitch.js token fetch (never throws), conditional user lookup — a thrown lookup
aborts the rest of the block —, photo-title read, then twitch.js
`sendChatMessage`, which catches its own errors.  Only the token refresh
touches durable state. -/
def chatAnnounceP0 (now : Int) (refO : RefreshOracle) (uO : UserOracle)
    (cO : ChatOracle) (st : StateP) (ch uid : String) (pid : Nat) (bits : Int) :
    StateP :=
  match ensureValidChannelTokenTW now refO st ch with
  | (row?, st1) =>
    let lookup : Option (Option HelixUser) :=
      match row? with
      | some row =>
        (match truthyStr row.access_token with
         | some atk => (match uO atk uid with | .ok u => some u | .error _ => none)
         | none => some none)
      | none => some none
    match lookup with
    | none => st1
    | some u? =>
      let display :=
        match u? with
        | some u =>
          let c := strOr u.display_name u.login
          if c = "" then "Someone" else c
        | none => "Someone"
      let title :=
        match st1.photos.find? (fun p => p.id == pid && p.channel_id == ch) with
        | some p => if p.title = "" then "" else " on \"" ++ p.title ++ "\""
        | none => ""
      let _sent := cO ch ("⭐ " ++ display ++ " tipped " ++ toString bits ++
        " Bits" ++ title)
      st1

structure TxBodyP0 where
  receipt : RawRcpt
  photoId : Option Nat
deriving Repr, DecidableEq

/-- `POST /api/transactions/complete` (part_000 lines 155-191): verify the signed
receipt (failure → 400 `bad_receipt`), require a truthy payer id (→ 400
`no_user_in_receipt`), then for `TIP_n` with a photo id: append a `tips` ledger
row AND bump `tip_bits_total` — NO idempotency key is consulted; the receipt's
`transactionId` is never read, so re-posting the same receipt repeats both
writes.  `sendPubSub` is fire-and-forget and stateless here; the announce
block's failures are caught. -/
def transactionsCompleteP0 (key : String) (now : Int) (refO : RefreshOracle)
    (uO : UserOracle) (cO : ChatOracle) (st : StateP) (ch : String)
    (body : TxBodyP0) : HttpRes Bool × StateP :=
  match jwtVerifyRcpt body.receipt key now with
  | .error _ => (.err 400 "bad_receipt", st)
  | .ok payload =>
    match truthyStr (payload.data.bind ReceiptData.userId) with
    | none => (.err 400 "no_user_in_receipt", st)
    | some uid =>
      match extractSkuP0 payload.data with
      | .nonString => (.err 400 "bad_receipt", st)
      | .str sku =>
        if strStartsWith sku "TIP_" then
          let bits := tipBitsP0 sku
          match body.photoId with
          | none => (.err 400 "missing_photoId", st)
          | some pid =>
            if pid = 0 then (.err 400 "missing_photoId", st)
            else
              let st1 := { st with tips := st.tips ++ [(⟨ch, pid, uid, bits, now⟩ : Tip)] }
              let st2 := { st1 with photos := st1.photos.map (fun p =>
                if p.id = pid ∧ p.channel_id = ch then
                  { p with tip_bits_total := p.tip_bits_total + bits }
                else p) }
              (.ok true, chatAnnounceP0 now refO uO cO st2 ch uid pid bits)
        else (.err 400 "unknown_sku", st)

/-! ### Concrete fixtures for witnesses and counterexamples -/

/-- A refresh oracle whose upstream exchange always fails. -/
def refO0 : RefreshOracle := fun _ => .error "upstream_down"

/-- A refresh oracle that succeeds with a one-hour token. -/
def refOGood : RefreshOracle :=
  fun _ => .ok { access_token := "at-2", refresh_token := some "rt-2", expires_in := some 3600 }

/-- A user-lookup oracle that always fails. -/
def uO0 : UserOracle := fun _ _ => .error "upstream_down"

/-- A chat oracle that accepts every message. -/
def cO0 : ChatOracle := fun _ _ => .ok ()

/-- A chat oracle that always fails. -/
def cOfail : ChatOracle := fun _ _ => .error "chat_down"

/-- A subscription oracle claiming every viewer subscribes. -/
def subTrue : SubOracle := fun _ _ => .ok true

/-- A subscription oracle denying every viewer. -/
def subFalse : SubOracle := fun _ _ => .ok false

/-- A subscription oracle that always fails upstream. -/
def subErr : SubOracle := fun _ _ => .error "upstream_down"

def rcptKey0 : String := "ext-secret"

/-- A `TIP_500` receipt payload with payer `u1` and transaction identity `T1`. -/
def tipReceipt0 : ReceiptPayload :=
  { data := some { userId := some "u1",
                   product := some (.obj (some "TIP_500") (some 500)),
                   transactionId := some "T1" } }

def tipBody0 : TxBodyP0 :=
  { receipt := .token (rcptSign rcptKey0 tipReceipt0), photoId := some 1 }

def stP1 : StateP :=
  { photos := [⟨1, "c1", "https://img/1", "Sunlit", 0, 0⟩],
    comments := [], tips := [], channels := [] }

def stA1 : StateA :=
  { photos := [⟨1, "c1", "https://img/1", "Sunlit", 0, 0⟩],
    comments := [], tips := [], channel_tokens := [] }

def stB1 : StateB := { photos := [⟨1, "https://img/1", "Sunlit", 0, 0⟩], comments := [] }

def twViewerNoId : TwitchCtx := { user_id := none, anon_user_id := some "A1", role := "viewer" }

def twViewerU2 : TwitchCtx := { user_id := some "u2", anon_user_id := some "A2", role := "viewer" }

def twBroadcaster : TwitchCtx :=
  { user_id := some "u0", anon_user_id := some "A0", role := "broadcaster" }

/-- The body server/server.js trusts: a bare client-chosen sku, no signature. -/
def clientSkuBody0 : TxBodyA :=
  { onReceipt := some ⟨some "TIP_500"⟩, photoId := some 1, comment := none }

/-- Claims of a token signed with the WRONG key, expired, role broadcaster. -/
def forgedClaims0 : SessClaims :=
  { channel_id := some "c1", anon_user_id := some "A1", user_id := some "u9",
    role := some "broadcaster", exp := some 5 }

def forgedAuth0 : RawAuth := .token (sessSign "attacker-key" forgedClaims0)

/-- A broadcaster session that never shared identity (`user_id` absent). -/
def bcClaimsNoId0 : SessClaims := { channel_id := some "c1", role := some "broadcaster" }

/-- A broadcaster session with a shared identity. -/
def bcClaimsU2 : SessClaims :=
  { channel_id := some "c1", user_id := some "u2", role := some "broadcaster" }

/-- A viewer session without shared identity (part_000 shape). -/
def anonViewerClaims0 : SessClaims := { channel_id := some "c1", role := some "viewer" }

/-- A valid session whose role claim is absent. -/
def noRoleClaims0 : SessClaims :=
  { channel_id := some "c1", anon_user_id := some "A3", user_id := some "u3",
    exp := some 2000 }

def staleRow0 : ChannelRow :=
  { channel_id := "c1", broadcaster_login := some "streamer",
    access_token := some "stale-at", refresh_token := some "revoked-rt",
    expires_at := some 50 }

def stTWstale : StateP := { photos := [], comments := [], tips := [], channels := [staleRow0] }

def stTWempty : StateP := { photos := [], comments := [], tips := [], channels := [] }

def freshRowTW : ChannelRow :=
  { channel_id := "c1", broadcaster_login := some "streamer",
    access_token := some "at-1", refresh_token := some "rt-1", expires_at := some 5000 }

def stTWfresh : StateP := { photos := [], comments := [], tips := [], channels := [freshRowTW] }

def freshRowA : TokenRow :=
  { channel_id := "c1", access_token := some "at-1", refresh_token := some "rt-1",
    expires_at := 5000 }

def expiredRowA : TokenRow :=
  { channel_id := "c1", access_token := some "at-1", refresh_token := some "rt-1",
    expires_at := 50 }

def stAfresh : StateA := { photos := [], comments := [], tips := [], channel_tokens := [freshRowA] }

def stAexp : StateA := { photos := [], comments := [], tips := [], channel_tokens := [expiredRowA] }

def stAempty : StateA := { photos := [], comments := [], tips := [], channel_tokens := [] }

/-- Photos plus a currently-valid broadcaster token, so the subscription oracle
is actually consulted. -/
def stAsub : StateA :=
  { photos := [⟨1, "c1", "https://img/1", "Sunlit", 0, 0⟩],
    comments := [], tips := [], channel_tokens := [freshRowA] }

/-! ### Helper lemmas -/

theorem findRow_upsert (l : List TokenRow) (row : TokenRow) :
    findRow (upsertToken l row) row.channel_id = some row := by
  induction l with
  | nil => simp [upsertToken, findRow]
  | cons a t ih =>
    by_cases h : a.channel_id = row.channel_id
    · simp [upsertToken, findRow, h]
    · simp [upsertToken, findRow, h, ih]

theorem getChannelTokenRow_save (now : Int) (st : StateA) (ch atk : String)
    (rt : Option String) (e : Int) :
    getChannelTokenRow (saveChannelToken now st ch atk rt e) ch =
      some ⟨ch, some atk, rt, now + e - 30⟩ := by
  have h := findRow_upsert st.channel_tokens ⟨ch, some atk, rt, now + e - 30⟩
  simpa [getChannelTokenRow, saveChannelToken] using h

theorem ensureValidChannelToken_frame (now : Int) (refO : RefreshOracle)
    (st : StateA) (ch : String) :
    (ensureValidChannelToken now refO st ch).2.photos = st.photos ∧
    (ensureValidChannelToken now refO st ch).2.comments = st.comments ∧
    (ensureValidChannelToken now refO st ch).2.tips = st.tips := by
  unfold ensureValidChannelToken
  cases hrow : getChannelTokenRow st ch with
  | none => simp
  | some row =>
    dsimp only
    split
    · simp
    · cases hrt : row.refresh_token with
      | none => simp
      | some rt =>
        dsimp only
        cases hres : refO rt with
        | error e => simp
        | ok t =>
          dsimp only
          cases hf : getChannelTokenRow (saveChannelToken now st ch t.access_token
              (match truthyStr t.refresh_token with
               | some r => some r
               | none => some rt) (numOr t.expires_in 3600)) ch with
          | none => simp [saveChannelToken]
          | some r2 => simp [saveChannelToken]

/-- The state after the server/server.js announce block is exactly the state after
its (up to) two token fetches: the user lookup and the chat post never touch it. -/
theorem chatAnnounceA_state (now : Int) (refO : RefreshOracle) (uO : UserOracle)
    (cO : ChatOracle) (st : StateA) (ch : String) (uid : Option String) :
    chatAnnounceA now refO uO cO st ch uid =
      (match ensureValidChannelToken now refO st ch with
       | (.error _, st1) => st1
       | (.ok _, st1) => (ensureValidChannelToken now refO st1 ch).2) := by
  unfold chatAnnounceA
  cases h1 : ensureValidChannelToken now refO st ch with
  | mk r1 st1 =>
    cases r1 with
    | error e => rfl
    | ok row =>
      dsimp only
      cases h2 : ensureValidChannelToken now refO st1 ch with
      | mk r2 st2 => cases r2 <;> rfl

theorem chatAnnounceA_frame (now : Int) (refO : RefreshOracle) (uO : UserOracle)
    (cO : ChatOracle) (st : StateA) (ch : String) (uid : Option String) :
    (chatAnnounceA now refO uO cO st ch uid).photos = st.photos ∧
    (chatAnnounceA now refO uO cO st ch uid).comments = st.comments ∧
    (chatAnnounceA now refO uO cO st ch uid).tips = st.tips := by
  rw [chatAnnounceA_state]
  cases h1 : ensureValidChannelToken now refO st ch with
  | mk r1 st1 =>
    have f1 := ensureValidChannelToken_frame now refO st ch
    rw [h1] at f1
    cases r1 with
    | error e => exact f1
    | ok row =>
      have f2 := ensureValidChannelToken_frame now refO st1 ch
      exact ⟨f2.1.trans f1.1, f2.2.1.trans f1.2.1, f2.2.2.trans f1.2.2⟩

theorem chatAnnounceA_oracles (now : Int) (refO : RefreshOracle)
    (uO uO2 : UserOracle) (cO cO2 : ChatOracle) :
    ∀ st ch uid, chatAnnounceA now refO uO cO st ch uid =
      chatAnnounceA now refO uO2 cO2 st ch uid := by
  intro st ch uid
  rw [chatAnnounceA_state, chatAnnounceA_state]

/-- The state after the part_000 announce block is exactly the state after its
single twitch.js token fetch. -/
theorem chatAnnounceP0_state (now : Int) (refO : RefreshOracle) (uO : UserOracle)
    (cO : ChatOracle) (st : StateP) (ch uid : String) (pid : Nat) (bits : Int) :
    chatAnnounceP0 now refO uO cO st ch uid pid bits =
      (ensureValidChannelTokenTW now refO st ch).2 := by
  unfold chatAnnounceP0
  cases h1 : ensureValidChannelTokenTW now refO st ch with
  | mk row? st1 =>
    dsimp only
    cases row? with
    | none => rfl
    | some row =>
      dsimp only
      cases hat : truthyStr row.access_token with
      | none => rfl
      | some atk => cases hu : uO atk uid <;> simp [hu]

theorem chatAnnounceP0_oracles (now : Int) (refO : RefreshOracle)
    (uO uO2 : UserOracle) (cO cO2 : ChatOracle) :
    ∀ st ch uid pid bits, chatAnnounceP0 now refO uO cO st ch uid pid bits =
      chatAnnounceP0 now refO uO2 cO2 st ch uid pid bits := by
  intro st ch uid pid bits
  rw [chatAnnounceP0_state, chatAnnounceP0_state]

theorem ensureValidChannelTokenTW_frame (now : Int) (refO : RefreshOracle)
    (st : StateP) (ch : String) :
    (ensureValidChannelTokenTW now refO st ch).2.photos = st.photos ∧
    (ensureValidChannelTokenTW now refO st ch).2.comments = st.comments ∧
    (ensureValidChannelTokenTW now refO st ch).2.tips = st.tips := by
  unfold ensureValidChannelTokenTW
  cases hrow : findChan st.channels ch with
  | none => simp
  | some row =>
    dsimp only
    split
    · simp
    · cases hres : (match row.refresh_token with
                    | some rt => refO rt
                    | none => (.error "missing refresh_token" : Except String RefreshResp)) with
      | error e => simp
      | ok t =>
        dsimp only
        simp

theorem transactionsCompleteA_oracles (now : Int) (refO : RefreshOracle)
    (uO uO2 : UserOracle) (cO cO2 : ChatOracle) (st : StateA) (ch : String)
    (tw : TwitchCtx) (body : TxBodyA) :
    transactionsCompleteA now refO uO cO st ch tw body =
      transactionsCompleteA now refO uO2 cO2 st ch tw body := by
  unfold transactionsCompleteA
  simp only [chatAnnounceA_oracles now refO uO uO2 cO cO2]

theorem transactionsCompleteP0_oracles (key : String) (now : Int) (refO : RefreshOracle)
    (uO uO2 : UserOracle) (cO cO2 : ChatOracle) (st : StateP) (ch : String)
    (body : TxBodyP0) :
    transactionsCompleteP0 key now refO uO cO st ch body =
      transactionsCompleteP0 key now refO uO2 cO2 st ch body := by
  unfold transactionsCompleteP0
  simp only [chatAnnounceP0_oracles now refO uO uO2 cO cO2]

/-! ### Claim theorems -/

/-- Claim C1 (code bug in the source): part_000's purchase-completion route applies
the same `TIP_500` receipt (payer `u1`, transaction identity `T1`) twice: after
two identical calls the `tips` ledger holds TWO rows and the photo's
`tip_bits_total` is 1000, not 500 — no idempotency key is ever consulted (the
receipt's `transactionId` is never read). -/
theorem tip_receipt_replay_double_credits :
    (transactionsCompleteP0 rcptKey0 1000 refO0 uO0 cO0 stP1 "c1" tipBody0).1 = .ok true ∧
    (transactionsCompleteP0 rcptKey0 1000 refO0 uO0 cO0
        (transactionsCompleteP0 rcptKey0 1000 refO0 uO0 cO0 stP1 "c1" tipBody0).2
        "c1" tipBody0).2 =
      { photos := [⟨1, "c1", "https://img/1", "Sunlit", 1000, 0⟩], comments := [],
        tips := [⟨"c1", 1, "u1", 500, 1000⟩, ⟨"c1", 1, "u1", 500, 1000⟩],
        channels := [] } := by decide

/-- Claim C2 (code bug in server/server.js): `POST /api/transactions/complete`
applies the tip effect from the client-supplied `onReceipt.sku` and answers 200
ok — no signed receipt exists in the handler's inputs, nothing is HMAC-verified
and no payer identity is checked — where the claim requires InvalidReceipt/400
with unchanged durable state for anything unverified. -/
theorem unverified_receipt_applies_effect :
    (transactionsCompleteA 1000 refO0 uO0 cO0 stA1 "c1" twViewerNoId clientSkuBody0).1 =
      .ok true ∧
    (transactionsCompleteA 1000 refO0 uO0 cO0 stA1 "c1" twViewerNoId clientSkuBody0).2 =
      { photos := [⟨1, "c1", "https://img/1", "Sunlit", 500, 1⟩],
        comments := [], tips := [], channel_tokens := [] } := by decide

/-- Claim C3 (code bug in server.js): `decode` extracts claims with `jwt.decode`
and never verifies signature or expiry: a token signed under the wrong key and
expired long ago still yields 200 with role broadcaster and `isSubscriber:
true` on `GET /api/status`, and passes the `POST /api/admin/photos` role gate;
the same token fails the verifying `verifyExtensionJWT` with an invalid
signature, so no 401 is ever produced where the claim demands one. -/
theorem unverified_session_token_grants_role :
    apiStatusB forgedAuth0 = .ok ⟨"broadcaster", true, some "c1", some "u9"⟩ ∧
    verifyExtensionJWT forgedAuth0 "server-secret" 1000 = .error "invalid signature" ∧
    (apiAdminPhotosB forgedAuth0 ⟨[], []⟩ "https://img/x.png" "t").1 =
      .ok ⟨1, "https://img/x.png", "t", 0, 0⟩ :=
  ⟨by decide, rfl, by decide⟩

/-- Claim C4 counterexample: in part_000 a broadcaster WITHOUT shared identity is
denied the protected photos resource (403 identity_required) even though the
subscription oracle would grant every id, and its status reports isSubscriber
false — this variant has no role bypass at all. -/
theorem role_bypass_fails_in_part000 :
    apiPhotosP0 1000 refO0 subTrue stP1 "c1" bcClaimsNoId0 =
      (.err 403 "identity_required", stP1) ∧
    (apiStatusP0 1000 refO0 subTrue stP1 "c1" bcClaimsNoId0).1 =
      .ok ⟨none, "broadcaster", false⟩ := by decide

/-- Claim C4 amended: the role bypass holds in the server/server.js variant — for
a verified broadcaster/moderator session, status reports isSubscriber true and
the photos resource is served, for EVERY oracle and state, identity shared or
not; the part_000 variant applies no bypass: staff without a shared identity
get 403 identity_required, and with one they are gated by the subscription
result exactly like a viewer. -/
theorem role_bypass_amended (now : Int) (refO : RefreshOracle) (subO : SubOracle)
    (st : StateA) (stp : StateP) (ch : String) (tw : TwitchCtx) (claims : SessClaims)
    (hrole : tw.role = "broadcaster" ∨ tw.role = "moderator") :
    apiStatusA now refO subO st ch tw = (.ok ⟨tw.user_id, tw.role, true⟩, st) ∧
    apiPhotosA now refO subO st ch tw = (.ok (photosOfA st ch), st) ∧
    (truthyStr claims.user_id = none →
      apiPhotosP0 now refO subO stp ch claims = (.err 403 "identity_required", stp)) ∧
    (∀ u st1, truthyStr claims.user_id = some u →
      isSubscriberTW now refO subO stp ch u = (false, st1) →
      apiPhotosP0 now refO subO stp ch claims = (.err 403 "sub_only", st1)) := by
  have hro : roleOf tw = tw.role := by
    rcases hrole with h | h <;> simp [roleOf, h]
  refine ⟨?_, ?_, ?_, ?_⟩
  · unfold apiStatusA
    rcases hrole with h | h <;> simp [hro, h]
  · unfold apiPhotosA
    rcases hrole with h | h <;> simp [hro, h]
  · intro h
    unfold apiPhotosP0
    simp [h]
  · intro u st1 hu hsub
    unfold apiPhotosP0
    simp [hu, hsub]

/-- Witness for the amended C4 at concrete inputs. -/
theorem role_bypass_amended_witness :
    apiStatusA 1000 refO0 subErr stA1 "c1" twBroadcaster =
      (.ok ⟨some "u0", "broadcaster", true⟩, stA1) ∧
    apiPhotosA 1000 refO0 subErr stA1 "c1" twBroadcaster =
      (.ok (photosOfA stA1 "c1"), stA1) ∧
    apiPhotosP0 1000 refO0 subErr stTWstale "c1" bcClaimsNoId0 =
      (.err 403 "identity_required", stTWstale) ∧
    apiPhotosP0 1000 refO0 subErr stTWstale "c1" bcClaimsU2 =
      (.err 403 "sub_only", stTWstale) := by
  have h1 := role_bypass_amended 1000 refO0 subErr stA1 stTWstale "c1" twBroadcaster
    bcClaimsNoId0 (Or.inl rfl)
  have h2 := role_bypass_amended 1000 refO0 subErr stA1 stTWstale "c1" twBroadcaster
    bcClaimsU2 (Or.inl rfl)
  exact ⟨h1.1, h1.2.1, h1.2.2.1 (by decide), h2.2.2.2 "u2" stTWstale (by decide) (by decide)⟩

/-- Claim C5: a verified viewer session with no shared identity is denied in both
variants: the photos route answers 403 identity_required without the result
depending on the subscription oracle (quantified over every oracle, including
one granting all ids), and status reports isSubscriber false. -/
theorem anonymous_viewer_denied (now : Int) (refO : RefreshOracle) (subO : SubOracle)
    (st : StateA) (stp : StateP) (ch : String) (tw : TwitchCtx) (claims : SessClaims)
    (hrole : tw.role = "viewer") (hid : tw.user_id = none)
    (hcid : claims.user_id = none) :
    apiPhotosA now refO subO st ch tw = (.err 403 "identity_required", st) ∧
    apiStatusA now refO subO st ch tw = (.ok ⟨none, "viewer", false⟩, st) ∧
    apiPhotosP0 now refO subO stp ch claims = (.err 403 "identity_required", stp) ∧
    (apiStatusP0 now refO subO stp ch claims).1 =
      .ok ⟨none, strOr claims.role "viewer", false⟩ := by
  have hro : roleOf tw = "viewer" := by simp [roleOf, hrole]
  refine ⟨?_, ?_, ?_, ?_⟩
  · unfold apiPhotosA
    simp [hro, hid]
  · unfold apiStatusA
    simp [hro, hid]
  · unfold apiPhotosP0
    simp [truthyStr, hcid]
  · unfold apiStatusP0
    simp [truthyStr, hcid]

/-- Witness for C5 at concrete inputs, with an oracle granting every id. -/
theorem anonymous_viewer_denied_witness :
    apiPhotosA 1000 refO0 subTrue stA1 "c1" twViewerNoId =
      (.err 403 "identity_required", stA1) ∧
    apiPhotosP0 1000 refO0 subTrue stP1 "c1" anonViewerClaims0 =
      (.err 403 "identity_required", stP1) := by
  have h := anonymous_viewer_denied 1000 refO0 subTrue stA1 stP1 "c1" twViewerNoId
    anonViewerClaims0 rfl rfl rfl
  exact ⟨h.1, h.2.2.1⟩

/-- Claim C6 counterexample: the twitch.js `ensureValidChannelToken` returns the
stale stored row — `expires_at` 50 with `now` = 1000 — when the refresh
exchange fails, and `null` (not a NoCredential failure) when no row exists. -/
theorem stale_token_returned_on_refresh_failure :
    ensureValidChannelTokenTW 1000 refO0 stTWstale "c1" = (some staleRow0, stTWstale) ∧
    staleRow0.expires_at = some 50 ∧
    ensureValidChannelTokenTW 1000 refO0 stTWempty "c1" = (none, stTWempty) := by decide

/-- Claim C6 amended: the server/server.js `ensureValidChannelToken` behaves as
claimed — the stored row is returned unmodified while it carries a token and
`now < expires_at`; on a stale row with a refresh token, a successful exchange
is persisted through the channel-keyed upsert and the returned row is
non-expired whenever the reported lifetime clears the 30-second safety margin;
a missing row or a failed exchange throws `no_channel_token` — whereas the
twitch.js variant instead returns `null` when no row exists and returns the
stale (possibly expired) row when the refresh exchange fails. -/
theorem getValidCredential_amended :
    (∀ (now : Int) (refO : RefreshOracle) (st : StateA) (ch : String) (row : TokenRow),
      getChannelTokenRow st ch = some row →
      (truthyStr row.access_token).isSome = true → row.expires_at > now →
      ensureValidChannelToken now refO st ch = (.ok row, st)) ∧
    (∀ (now : Int) (refO : RefreshOracle) (st : StateA) (ch : String)
        (row : TokenRow) (rt : String) (t : RefreshResp),
      getChannelTokenRow st ch = some row →
      ¬((truthyStr row.access_token).isSome = true ∧ row.expires_at > now) →
      row.refresh_token = some rt → refO rt = .ok t →
      30 < numOr t.expires_in 3600 →
      ensureValidChannelToken now refO st ch =
        (.ok ⟨ch, some t.access_token,
              (match truthyStr t.refresh_token with
               | some r => some r
               | none => some rt),
              now + numOr t.expires_in 3600 - 30⟩,
         saveChannelToken now st ch t.access_token
           (match truthyStr t.refresh_token with
            | some r => some r
            | none => some rt) (numOr t.expires_in 3600)) ∧
      now < now + numOr t.expires_in 3600 - 30) ∧
    (∀ (now : Int) (refO : RefreshOracle) (st : StateA) (ch : String),
      getChannelTokenRow st ch = none →
      ensureValidChannelToken now refO st ch = (.error "no_channel_token", st)) ∧
    (∀ (now : Int) (refO : RefreshOracle) (st : StateA) (ch : String)
        (row : TokenRow) (rt m : String),
      getChannelTokenRow st ch = some row →
      ¬((truthyStr row.access_token).isSome = true ∧ row.expires_at > now) →
      row.refresh_token = some rt → refO rt = .error m →
      ensureValidChannelToken now refO st ch = (.error "no_channel_token", st)) ∧
    (∀ (now : Int) (refO : RefreshOracle) (stp : StateP) (ch : String) (row : ChannelRow),
      findChan stp.channels ch = some row → freshTW row.expires_at now = true →
      ensureValidChannelTokenTW now refO stp ch = (some row, stp)) ∧
    (∀ (now : Int) (refO : RefreshOracle) (stp : StateP) (ch : String),
      findChan stp.channels ch = none →
      ensureValidChannelTokenTW now refO stp ch = (none, stp)) ∧
    (∀ (now : Int) (refO : RefreshOracle) (stp : StateP) (ch : String)
        (row : ChannelRow) (rt m : String),
      findChan stp.channels ch = some row → freshTW row.expires_at now = false →
      row.refresh_token = some rt → refO rt = .error m →
      ensureValidChannelTokenTW now refO stp ch = (some row, stp)) := by
  refine ⟨?_, ?_, ?_, ?_, ?_, ?_, ?_⟩
  · intro now refO st ch row h1 h2 h3
    unfold ensureValidChannelToken
    simp [h1, h2, h3]
  · intro now refO st ch row rt t h1 h2 h3 h4 h5
    constructor
    · unfold ensureValidChannelToken
      simp only [h1, h3, h4, if_neg h2]
      rw [getChannelTokenRow_save]
    · omega
  · intro now refO st ch h1
    unfold ensureValidChannelToken
    simp [h1]
  · intro now refO st ch row rt m h1 h2 h3 h4
    unfold ensureValidChannelToken
    simp only [h1, h3, h4, if_neg h2]
  · intro now refO stp ch row h1 h2
    unfold ensureValidChannelTokenTW
    simp [h1, h2]
  · intro now refO stp ch h1
    unfold ensureValidChannelTokenTW
    simp [h1]
  · intro now refO stp ch row rt m h1 h2 h3 h4
    unfold ensureValidChannelTokenTW
    simp [h1, h2, h3, h4]

/-- Witness for the amended C6, exercising each hypothesis-bearing branch at
concrete inputs. -/
theorem getValidCredential_amended_witness :
    ensureValidChannelToken 1000 refO0 stAfresh "c1" = (.ok freshRowA, stAfresh) ∧
    ensureValidChannelToken 1000 refOGood stAexp "c1" =
      (.ok ⟨"c1", some "at-2", some "rt-2", 1000 + 3600 - 30⟩,
       saveChannelToken 1000 stAexp "c1" "at-2" (some "rt-2") 3600) ∧
    ensureValidChannelToken 1000 refO0 stAempty "c1" =
      (.error "no_channel_token", stAempty) ∧
    ensureValidChannelToken 1000 refO0 stAexp "c1" =
      (.error "no_channel_token", stAexp) ∧
    ensureValidChannelTokenTW 1000 refO0 stTWfresh "c1" = (some freshRowTW, stTWfresh) ∧
    ensureValidChannelTokenTW 1000 refO0 stTWempty "c1" = (none, stTWempty) ∧
    ensureValidChannelTokenTW 1000 refO0 stTWstale "c1" = (some staleRow0, stTWstale) := by
  have h := getValidCredential_amended
  refine ⟨h.1 1000 refO0 stAfresh "c1" freshRowA rfl (by decide) (by decide),
          ?_,
          h.2.2.1 1000 refO0 stAempty "c1" rfl,
          h.2.2.2.1 1000 refO0 stAexp "c1" expiredRowA "rt-1" "upstream_down" rfl (by decide) rfl rfl,
          h.2.2.2.2.1 1000 refO0 stTWfresh "c1" freshRowTW rfl (by decide),
          h.2.2.2.2.2.1 1000 refO0 stTWempty "c1" rfl,
          h.2.2.2.2.2.2 1000 refO0 stTWstale "c1" staleRow0 "revoked-rt" "upstream_down" rfl (by decide) rfl rfl⟩
  have h2 := (h.2.1 1000 refOGood stAexp "c1" expiredRowA "rt-1"
    { access_token := "at-2", refresh_token := some "rt-2", expires_in := some 3600 }
    rfl (by decide) rfl rfl (by decide)).1
  simpa using h2

/-- Claim C7: upstream failures in the entitlement path fail closed and soft.
The twitch.js `isSubscriber` yields `false` (it never throws) whenever the
Helix lookup fails; in server/server.js a failing `isSubscriber` makes the
photos route answer the ordinary 403 `sub_only` — never a 500 — and status
report isSubscriber false; and nothing negative is persisted: a repeat call on
exactly the state the failing call returned, with a now-working oracle, serves
the photos. -/
theorem upstream_failure_fails_closed :
    (∀ (now : Int) (refO : RefreshOracle) (subO : SubOracle) (stp : StateP)
        (ch u m : String), subO ch u = .error m →
      (isSubscriberTW now refO subO stp ch u).1 = false) ∧
    (∀ (now : Int) (refO : RefreshOracle) (subO : SubOracle) (st st1 : StateA)
        (ch u m : String) (tw : TwitchCtx),
      roleOf tw = "viewer" → tw.user_id = some u →
      isSubscriberA now refO subO st ch u = (.error m, st1) →
      apiPhotosA now refO subO st ch tw = (.err 403 "sub_only", st1) ∧
      apiStatusA now refO subO st ch tw = (.ok ⟨some u, "viewer", false⟩, st1)) ∧
    (∀ (now : Int) (refO : RefreshOracle) (subO2 : SubOracle) (st1 st2 : StateA)
        (ch u : String) (tw : TwitchCtx),
      roleOf tw = "viewer" → tw.user_id = some u →
      isSubscriberA now refO subO2 st1 ch u = (.ok true, st2) →
      apiPhotosA now refO subO2 st1 ch tw = (.ok (photosOfA st2 ch), st2)) := by
  refine ⟨?_, ?_, ?_⟩
  · intro now refO subO stp ch u m hsub
    unfold isSubscriberTW
    cases h1 : ensureValidChannelTokenTW now refO stp ch with
    | mk row? st1 =>
      cases row? with
      | none => rfl
      | some row =>
        dsimp only
        cases hat : truthyStr row.access_token with
        | none => rfl
        | some atk => simp [hsub]
  · intro now refO subO st st1 ch u m tw hr hu hiso
    constructor
    · unfold apiPhotosA
      simp [hr, hu, hiso]
    · unfold apiStatusA
      simp [hr, hu, hiso]
  · intro now refO subO2 st1 st2 ch u tw hr hu hiso
    unfold apiPhotosA
    simp [hr, hu, hiso]

/-- Witness for C7 at concrete inputs: a failing Helix lookup behind a valid
broadcaster token, then a working oracle on the state the failure returned. -/
theorem upstream_failure_fails_closed_witness :
    (isSubscriberTW 1000 refO0 subErr stTWstale "c1" "u2").1 = false ∧
    apiPhotosA 1000 refO0 subErr stAsub "c1" twViewerU2 =
      (.err 403 "sub_only", stAsub) ∧
    apiStatusA 1000 refO0 subErr stAsub "c1" twViewerU2 =
      (.ok ⟨some "u2", "viewer", false⟩, stAsub) ∧
    apiPhotosA 1000 refO0 subTrue stAsub "c1" twViewerU2 =
      (.ok (photosOfA stAsub "c1"), stAsub) := by
  have h := upstream_failure_fails_closed
  have h2 := h.2.1 1000 refO0 subErr stAsub stAsub "c1" "u2" "upstream_down"
    twViewerU2 rfl rfl rfl
  exact ⟨h.1 1000 refO0 subErr stTWstale "c1" "u2" "upstream_down" rfl,
         h2.1, h2.2,
         h.2.2 1000 refO0 subTrue stAsub stAsub "c1" "u2" twViewerU2 rfl rfl rfl⟩

/-- Claim C8: the chat announcement, and the user lookup feeding it, are
best-effort: the entire outcome (HTTP response AND final durable state) of both
purchase-completion variants is invariant under exchanging the user-lookup and
chat oracles for any others — in particular for always-failing ones — and a
concrete `TIP_500` purchase with failing lookup and failing chat still returns
ok with the ledger row and counter applied. -/
theorem chat_failure_does_not_affect_purchase :
    (∀ (now : Int) (refO : RefreshOracle) (uO uO2 : UserOracle) (cO cO2 : ChatOracle)
        (st : StateA) (ch : String) (tw : TwitchCtx) (body : TxBodyA),
      transactionsCompleteA now refO uO cO st ch tw body =
        transactionsCompleteA now refO uO2 cO2 st ch tw body) ∧
    (∀ (key : String) (now : Int) (refO : RefreshOracle) (uO uO2 : UserOracle)
        (cO cO2 : ChatOracle) (stp : StateP) (ch : String) (body : TxBodyP0),
      transactionsCompleteP0 key now refO uO cO stp ch body =
        transactionsCompleteP0 key now refO uO2 cO2 stp ch body) ∧
    (transactionsCompleteP0 rcptKey0 1000 refO0 uO0 cOfail stP1 "c1" tipBody0).1 =
      .ok true ∧
    (transactionsCompleteP0 rcptKey0 1000 refO0 uO0 cOfail stP1 "c1" tipBody0).2 =
      { photos := [⟨1, "c1", "https://img/1", "Sunlit", 500, 0⟩], comments := [],
        tips := [⟨"c1", 1, "u1", 500, 1000⟩], channels := [] } := by
  refine ⟨?_, ?_, by decide, by decide⟩
  · intro now refO uO uO2 cO cO2 st ch tw body
    exact transactionsCompleteA_oracles now refO uO uO2 cO cO2 st ch tw body
  · intro key now refO uO uO2 cO cO2 stp ch body
    exact transactionsCompleteP0_oracles key now refO uO uO2 cO cO2 stp ch body

/-- Claim C9: `POST /api/like` in server/server.js — for a broadcaster/moderator
session, or for any role once DEV_FREEBITS is set — bumps the addressed photo's
likes_count by 1 and tip_bits_total by the client-supplied bits, writes NO tips
ledger row and touches no comments; no receipt appears anywhere in the
handler's inputs, so no verification can occur.  The unauthenticated server.js
variant applies the same update for any caller whenever the photo exists. -/
theorem like_updates_counters_without_receipt :
    (∀ (dev : Bool) (now : Int) (refO : RefreshOracle) (uO : UserOracle)
        (cO : ChatOracle) (st : StateA) (ch : String) (tw : TwitchCtx)
        (pid : Nat) (bits : Option Int),
      (dev = true ∨ roleOf tw = "broadcaster" ∨ roleOf tw = "moderator") →
      pid ≠ 0 →
      ((apiLikeA dev now refO uO cO st ch tw ⟨some pid, bits⟩).1 = .ok true ∧
       (apiLikeA dev now refO uO cO st ch tw ⟨some pid, bits⟩).2.photos =
         st.photos.map (fun p =>
           if p.id = pid ∧ p.channel_id = ch then
             { p with likes_count := p.likes_count + 1,
                      tip_bits_total := p.tip_bits_total + bits.getD 0 }
           else p) ∧
       (apiLikeA dev now refO uO cO st ch tw ⟨some pid, bits⟩).2.tips = st.tips ∧
       (apiLikeA dev now refO uO cO st ch tw ⟨some pid, bits⟩).2.comments = st.comments)) ∧
    (∀ (st : StateB) (pid : Nat) (bits : Int),
      pid ≠ 0 → (st.photos.filter (fun p => p.id == pid)).length ≠ 0 →
      apiLikeB st ⟨some pid, bits⟩ =
        (.ok (pid, bits), { st with photos := st.photos.map (fun p =>
          if p.id == pid then
            { p with likes_count := p.likes_count + 1,
                     tip_bits_total := p.tip_bits_total + bits }
          else p) })) := by
  constructor
  · intro dev now refO uO cO st ch tw pid bits hgate hpid
    have hcond : ¬(¬dev = true ∧ roleOf tw ≠ "broadcaster" ∧ roleOf tw ≠ "moderator") := by
      rcases hgate with h | h | h <;> simp [h]
    have heq : apiLikeA dev now refO uO cO st ch tw ⟨some pid, bits⟩ =
        (.ok true, chatAnnounceA now refO uO cO
          { st with photos := st.photos.map (fun p =>
              if p.id = pid ∧ p.channel_id = ch then
                { p with likes_count := p.likes_count + 1,
                         tip_bits_total := p.tip_bits_total + bits.getD 0 }
              else p) } ch tw.user_id) := by
      unfold apiLikeA
      dsimp only
      rw [if_neg hcond, if_neg hpid]
    rw [heq]
    have hf := chatAnnounceA_frame now refO uO cO
      { st with photos := st.photos.map (fun p =>
          if p.id = pid ∧ p.channel_id = ch then
            { p with likes_count := p.likes_count + 1,
                     tip_bits_total := p.tip_bits_total + bits.getD 0 }
          else p) } ch tw.user_id
    exact ⟨rfl, hf.1, hf.2.2, hf.2.1⟩
  · intro st pid bits hpid hhit
    unfold apiLikeB
    dsimp only [Option.getD]
    rw [if_neg hpid, if_neg hhit]

/-- Witness for C9 at concrete inputs. -/
theorem like_updates_counters_without_receipt_witness :
    (apiLikeA false 1000 refO0 uO0 cO0 stA1 "c1" twBroadcaster ⟨some 1, some 100⟩).1 =
      .ok true ∧
    (apiLikeA false 1000 refO0 uO0 cO0 stA1 "c1" twBroadcaster ⟨some 1, some 100⟩).2.tips =
      stA1.tips ∧
    apiLikeB stB1 ⟨some 1, 100⟩ =
      (.ok (1, 100), { stB1 with photos := stB1.photos.map (fun p =>
        if p.id == 1 then
          { p with likes_count := p.likes_count + 1,
                   tip_bits_total := p.tip_bits_total + 100 }
        else p) }) := by
  have h := like_updates_counters_without_receipt
  have h1 := h.1 false 1000 refO0 uO0 cO0 stA1 "c1" twBroadcaster 1 (some 100)
    (Or.inr (Or.inl rfl)) (by decide)
  exact ⟨h1.1, h1.2.2.1, h.2 stB1 1 100 (by decide) (by decide)⟩

/-- Claim C10: least privilege on the verified role.  `requireAuth` defaults an
absent role claim to viewer; `requireBroadcaster` — the gate in front of the
admin photo add/delete and comment list/delete routes — passes exactly the role
strings broadcaster and moderator; for any other role the status/photos
entitlement bypass never fires: without identity the photos route 403s, and
with identity it serves photos only when the subscription lookup returned true;
with DEV_FREEBITS unset the like route 403s every non-staff role; part_000's
status handler also defaults an absent role to viewer. -/
theorem role_defaults_and_guards :
    (∀ (key : String) (now : Int) (c : SessClaims),
      c.role = none →
      jwtVerifySess (sessSign key c) key now = .ok c →
      requireAuth (.token (sessSign key c)) key now =
        .ok (c.channel_id, ⟨truthyStr c.user_id, truthyStr c.anon_user_id, "viewer"⟩)) ∧
    (∀ tw : TwitchCtx, requireBroadcasterA tw = true ↔
      (roleOf tw = "broadcaster" ∨ roleOf tw = "moderator")) ∧
    (∀ (now : Int) (refO : RefreshOracle) (subO : SubOracle) (st : StateA)
        (ch : String) (tw : TwitchCtx),
      roleOf tw ≠ "broadcaster" → roleOf tw ≠ "moderator" →
      (tw.user_id = none →
        apiPhotosA now refO subO st ch tw = (.err 403 "identity_required", st) ∧
        (apiStatusA now refO subO st ch tw).1 = .ok ⟨none, roleOf tw, false⟩) ∧
      (∀ u, tw.user_id = some u →
        (isSubscriberA now refO subO st ch u).1 ≠ .ok true →
        apiPhotosA now refO subO st ch tw =
          (.err 403 "sub_only", (isSubscriberA now refO subO st ch u).2))) ∧
    (∀ (now : Int) (refO : RefreshOracle) (uO : UserOracle) (cO : ChatOracle)
        (st : StateA) (ch : String) (tw : TwitchCtx) (body : LikeBody),
      roleOf tw ≠ "broadcaster" → roleOf tw ≠ "moderator" →
      apiLikeA false now refO uO cO st ch tw body = (.err 403 "bits_required", st)) ∧
    (∀ (now : Int) (refO : RefreshOracle) (subO : SubOracle) (stp : StateP)
        (ch : String) (claims : SessClaims),
      claims.role = none →
      ∃ b, (apiStatusP0 now refO subO stp ch claims).1 =
        .ok ⟨truthyStr claims.user_id, "viewer", b⟩) := by
  refine ⟨?_, ?_, ?_, ?_, ?_⟩
  · intro key now c hrole hver
    unfold requireAuth verifyExtensionJWT
    dsimp only
    rw [hver]
    simp [hrole, strOr]
  · intro tw
    simp [requireBroadcasterA]
  · intro now refO subO st ch tw h1 h2
    refine ⟨?_, ?_⟩
    · intro hid
      constructor
      · unfold apiPhotosA
        simp [h1, h2, hid]
      · unfold apiStatusA
        simp [h1, h2, hid]
    · intro u hu hne
      unfold apiPhotosA
      cases hiso : isSubscriberA now refO subO st ch u with
      | mk r s1 =>
        cases r with
        | error m => simp [h1, h2, hu, hiso]
        | ok b =>
          cases b with
          | true => exact absurd (by rw [hiso]) hne
          | false => simp [h1, h2, hu, hiso]
  · intro now refO uO cO st ch tw body h1 h2
    unfold apiLikeA
    dsimp only
    rw [if_pos ⟨by simp, h1, h2⟩]
  · intro now refO subO stp ch claims hrole
    unfold apiStatusP0
    cases hu : truthyStr claims.user_id with
    | none => exact ⟨false, by simp [hrole, strOr, hu]⟩
    | some u =>
      cases hiso : isSubscriberTW now refO subO stp ch u with
      | mk b s1 => exact ⟨b, by simp [hrole, strOr, hu, hiso]⟩

/-- Witness for C10 at concrete inputs. -/
theorem role_defaults_and_guards_witness :
    requireAuth (.token (sessSign "k" noRoleClaims0)) "k" 1000 =
      .ok (some "c1", ⟨some "u3", some "A3", "viewer"⟩) ∧
    (requireBroadcasterA twViewerU2 = true ↔
      (roleOf twViewerU2 = "broadcaster" ∨ roleOf twViewerU2 = "moderator")) ∧
    apiPhotosA 1000 refO0 subFalse stAsub "c1" twViewerU2 =
      (.err 403 "sub_only", stAsub) ∧
    apiLikeA false 1000 refO0 uO0 cO0 stA1 "c1" twViewerU2 ⟨some 1, some 100⟩ =
      (.err 403 "bits_required", stA1) ∧
    (∃ b, (apiStatusP0 1000 refO0 subTrue stTWstale "c1" noRoleClaims0).1 =
      .ok ⟨some "u3", "viewer", b⟩) := by
  have h := role_defaults_and_guards
  refine ⟨?_, h.2.1 twViewerU2, ?_, ?_, ?_⟩
  · exact h.1 "k" 1000 noRoleClaims0 rfl rfl
  · have hval : (isSubscriberA 1000 refO0 subFalse stAsub "c1" "u2").1 = Except.ok false := rfl
    exact (h.2.2.1 1000 refO0 subFalse stAsub "c1" twViewerU2 (by decide) (by decide)).2
      "u2" rfl (by rw [hval]; simp)
  · exact h.2.2.2.1 1000 refO0 uO0 cO0 stA1 "c1" twViewerU2 ⟨some 1, some 100⟩
      (by decide) (by decide)
  · have := h.2.2.2.2 1000 refO0 subTrue stTWstale "c1" noRoleClaims0 rfl
    simpa using this
